import Mathlib

/-!
Shallow embedding of the QA automation case study harness
(part1_debug_solution.py, part3_integration_test.py).

External surfaces (HTTP requests, Playwright page interactions) are modelled
as explicit outcome parameters of type Except ApiError _, so each embedded
function is a pure function of the outcomes the real code would observe.
-/

namespace QaCaseStudy

/-- Error kinds observable by the harness: HTTP access-denial responses
(notFound, forbidden), transport-level failures (timeout, connection), and
authentication or other failures. Every Python exception raised by a surface
call is modelled as one of these. -/
inductive ApiError
  | notFound
  | forbidden
  | timeout
  | connection
  | authFailed
deriving DecidableEq, Repr

/-- Outcome of APIClient.get_project: the body raises on any non-200 status,
so the observable result is either a project payload (abstracted to Unit) or
an exception. -/
abbrev GetResult := Except ApiError Unit

/-- Tenant identifier COMPANY1_ID used by test_project_creation_flow. -/
def COMPANY1_ID : String := "company1"

/-- TenantIsolationTester.verify_tenant_isolation (part3, lines 263-282):
first reads the project as the authorized tenant, returning false on any
exception; then reads it as the unauthorized tenant, returning false when
that read succeeds and true when it raises any exception at all (the except
clause is a catch-all, not restricted to denial errors). -/
def verify_tenant_isolation (authorizedRead unauthorizedRead : GetResult) : Bool :=
  match authorizedRead with
  | .error _ => false
  | .ok _ =>
    match unauthorizedRead with
    | .ok _ => false
    | .error _ => true

/-- APIClient.delete_project (part3, lines 109-122): issues the delete and
returns whether the status code is 200, 204 or 404; any exception during the
request is caught and yields false. The function is total (never raises). -/
def delete_project (resp : Except ApiError Nat) : Bool :=
  match resp with
  | .ok status => status == 200 || status == 204 || status == 404
  | .error _ => false

/-- The max_retries constant of LoginPage.navigate_to_login (part1, line 75). -/
def max_retries : Nat := 3

/-- Loop body of LoginPage.navigate_to_login (part1, lines 73-92), modelled
over the attempt index and the number of remaining loop iterations. Each
iteration invokes the navigation once (op attempt); success returns with the
total number of invocations made; an exception on the final iteration is
re-raised, an exception earlier sleeps and continues with the next attempt.
The none result models the implicit fall-through return of the Python for
loop, reachable only when the iteration budget is zero. -/
def navigateAttempts (op : Nat → Except ApiError Unit) :
    (attempt remaining : Nat) → Option (Except ApiError Nat)
  | _, 0 => none
  | attempt, 1 =>
    match op attempt with
    | .ok _ => some (.ok (attempt + 1))
    | .error e => some (.error e)
  | attempt, remaining + 2 =>
    match op attempt with
    | .ok _ => some (.ok (attempt + 1))
    | .error _ => navigateAttempts op (attempt + 1) (remaining + 1)

/-- LoginPage.navigate_to_login: runs the retry loop from attempt 0 with
max_retries iterations. -/
def navigate_to_login (op : Nat → Except ApiError Unit) : Option (Except ApiError Nat) :=
  navigateAttempts op 0 max_retries

/-- WebUITester.verify_project_in_dashboard (part3, lines 147-168), modelled
over the two Playwright waits it performs: the wait for the project list
container (wait_for_selector on .project-list, OUTSIDE the try block, so its
timeout exception propagates) and the visibility wait for the project card
(inside the try block, so its exception is converted to the return value
false). -/
def verify_project_in_dashboard (listLoad cardVisible : Except ApiError Unit) :
    Except ApiError Bool :=
  match listLoad with
  | .error e => .error e
  | .ok _ =>
    match cardVisible with
    | .ok _ => .ok true
    | .error _ => .ok false

/-- The platform matrix of BrowserStackIntegration.test_cross_platform
(part3, line 324). -/
def platforms : List String := ["chrome_windows", "safari_mac", "chrome_android", "safari_ios"]

/-- Per-platform body of test_cross_platform: the verification outcome for
one platform, with any exception caught and recorded as false. -/
def platformOutcome (verify : String → Except ApiError Bool) (p : String) : Bool :=
  match verify p with
  | .ok b => b
  | .error _ => false

/-- BrowserStackIntegration.test_cross_platform (part3, lines 317-345): runs
the per-platform verification once for each platform in the matrix, isolating
exceptions per platform, and returns the per-platform result map (as an
association list in matrix order). -/
def test_cross_platform (verify : String → Except ApiError Bool) : List (String × Bool) :=
  platforms.map (fun p => (p, platformOutcome verify p))

/-- Count of passing entries, as summed by sum(platform_results.values()). -/
def passCount (results : List Bool) : Nat := results.count true

/-- The success rate computed at part3 line 510: sum of passing entries
divided by the number of entries, as exact rational arithmetic. -/
def success_rate (results : List Bool) : ℚ :=
  (passCount results : ℚ) / (results.length : ℚ)

/-- The 0.8 acceptance threshold used at part3 lines 511 and 678. -/
def threshold : ℚ := 8 / 10

/-- The accept/reject decision applied to a fan-out result list:
success_rate >= 0.8. -/
def meets_threshold (results : List Bool) : Bool :=
  decide (threshold ≤ success_rate results)

/-- Result of one run of test_project_creation_flow: the cleanup registry
(the cleanup_projects fixture list) at run end, and whether the test body
passed all stages. -/
structure FlowResult where
  registry : List (Nat × String)
  passed : Bool
deriving DecidableEq, Repr

/-- test_project_creation_flow (part3, lines 399-534), modelled over the
stage outcomes: the API create result, the web UI, iPhone and Android
verification verdicts, the two isolation reads, and the per-platform
verification for the cross-platform fan-out. When the create succeeds, the
created id is appended to the cleanup registry (line 436) immediately, before
any verification step, and the registry is not modified afterwards; a failure
at any later stage leaves the registry unchanged. -/
def test_project_creation_flow (createResult : Except ApiError Nat)
    (uiOk iphoneOk androidOk : Bool) (isolationA isolationB : GetResult)
    (platformVerify : String → Except ApiError Bool) : FlowResult :=
  match createResult with
  | .error _ => { registry := [], passed := false }
  | .ok pid =>
    { registry := [(pid, COMPANY1_ID)],
      passed := uiOk && iphoneOk && androidOk &&
        verify_tenant_isolation isolationA isolationB &&
        meets_threshold ((test_cross_platform platformVerify).map Prod.snd) }

/-- The cleanup_projects fixture of part3 (lines 380-397): after the test it
re-authenticates and then attempts delete_project once per registered entry,
in order. delete_project never raises, so once authentication succeeds every
entry is attempted; if the re-authentication raises, the surrounding except
clause catches it, logs, and no deletion is attempted. Returns the list of
(id, tenant) pairs whose deletion was attempted. -/
def cleanup_projects (auth : Except ApiError Unit) (registry : List (Nat × String)) :
    List (Nat × String) :=
  match auth with
  | .error _ => []
  | .ok _ => registry

/-- One collected worker result of test_concurrent_project_creation:
(worker id, success flag, created project id if any). -/
abbrev WorkerResult := Nat × Bool × Option Nat

/-- The num_threads constant of test_concurrent_project_creation (line 635). -/
def num_threads : Nat := 5

/-- successful_creations counter (part3, lines 667-674): the number of
collected worker results whose success flag is set. -/
def successful_creations (results : List WorkerResult) : Nat :=
  results.countP (fun r => r.2.1)

/-- created_project_ids list (part3, lines 668-674): the ids reported by the
successful workers, in collection order. -/
def created_project_ids (results : List WorkerResult) : List (Option Nat) :=
  (results.filter (fun r => r.2.1)).map (fun r => r.2.2)

/-- The concurrent-creation success rate (line 677):
successful_creations / num_threads. -/
def concurrent_success_rate (results : List WorkerResult) : ℚ :=
  (successful_creations results : ℚ) / (num_threads : ℚ)

/-- test_concurrent_project_creation (part3, lines 627-689) after result
collection: asserts success_rate >= 0.8 (line 678) and only then reaches the
cleanup block (lines 683-689), which authenticates a fresh client and
attempts deletion of each collected id. The assert statement precedes the
cleanup block and is not wrapped in any try/finally, so a below-threshold
ratio raises before any deletion is attempted; an authentication exception in
the cleanup block is caught and also skips all deletions. Returns (whether
the assertion passed, the list of ids whose deletion was attempted). -/
def test_concurrent_project_creation (results : List WorkerResult)
    (cleanupAuth : Except ApiError Unit) : Bool × List (Option Nat) :=
  if threshold ≤ concurrent_success_rate results then
    match cleanupAuth with
    | .ok _ => (true, created_project_ids results)
    | .error _ => (true, [])
  else (false, [])

/-- Abstract steps of the orchestrated workflow, for stating which
synchronization mechanism precedes each observation of asynchronous state. -/
inductive Step
  | uiLogin
  | fixedSleep (ms : Nat)
  | dashboardVisibilityCheck
  | detailCheck
deriving DecidableEq, Repr

/-- The literal step sequence of STEP 2 of test_project_creation_flow
(part3, lines 445-469): web login, an unconditional time.sleep(2) at line
457, then the dashboard visibility check and the detail check. -/
def step2_sequence : List Step :=
  [.uiLogin, .fixedSleep 2000, .dashboardVisibilityCheck, .detailCheck]

/-- Example navigation-outcome stream: the first two attempts raise, the
third succeeds. -/
def opEx : Nat → Except ApiError Unit :=
  fun j => if j < 2 then .error .timeout else .ok ()

/-- Example per-platform verification in which exactly one platform raises. -/
def verifyEx : String → Except ApiError Bool :=
  fun p => if p = "safari_mac" then .error .timeout else .ok true

/-- Collected worker results with three successes out of five workers. -/
def threeOfFiveResults : List WorkerResult :=
  [(0, true, some 100), (1, true, some 101), (2, true, some 102),
   (3, false, none), (4, false, none)]

/-- Collected worker results with four successes out of five workers. -/
def fourOfFiveResults : List WorkerResult :=
  [(0, true, some 100), (1, true, some 101), (2, true, some 102),
   (3, true, some 103), (4, false, none)]

/-- C1: verify_tenant_isolation returns true if and only if the authorized
read succeeds and the unauthorized read is denied (raises); in particular it
returns false whenever the authorized read fails, and false whenever the
unauthorized read succeeds. -/
theorem verify_tenant_isolation_spec (ra rb : GetResult) :
    (verify_tenant_isolation ra rb = true ↔ (∃ u, ra = .ok u) ∧ ∃ e, rb = .error e) ∧
    (∀ e, ra = .error e → verify_tenant_isolation ra rb = false) ∧
    (∀ u, rb = .ok u → verify_tenant_isolation ra rb = false) := by
  cases ra <;> cases rb <;> simp [verify_tenant_isolation]

/-- Witness for C1 at a concrete input: an authorized read that succeeds and
an unauthorized read denied with Forbidden yield a passing verdict. -/
theorem verify_tenant_isolation_spec_witness :
    verify_tenant_isolation (.ok ()) (.error .forbidden) = true :=
  ((verify_tenant_isolation_spec (.ok ()) (.error .forbidden)).1).mpr
    ⟨⟨(), rfl⟩, ⟨.forbidden, rfl⟩⟩

/-- C10: whenever the authorized read succeeds, verify_tenant_isolation
returns true when the unauthorized read raises any exception at all, not only
an access-denial error; in particular a transport timeout on the unauthorized
read yields a passing verdict. -/
theorem verify_tenant_isolation_any_error_passes (ra : GetResult)
    (h : ∃ u, ra = .ok u) (e : ApiError) :
    verify_tenant_isolation ra (.error e) = true := by
  obtain ⟨u, hu⟩ := h
  subst hu
  rfl

/-- Witness for C10 at a concrete input: a network timeout on the
unauthorized read passes the isolation check. -/
theorem verify_tenant_isolation_any_error_witness :
    verify_tenant_isolation (.ok ()) (.error .timeout) = true :=
  verify_tenant_isolation_any_error_passes (.ok ()) ⟨(), rfl⟩ .timeout

/-- C9: delete_project never raises (it is a total Bool-valued function of
the request outcome) and returns true exactly when the request completed with
status 200, 204 or 404; it returns false for any other status and for any
transport-level exception. -/
theorem delete_project_spec (resp : Except ApiError Nat) :
    delete_project resp = true ↔ ∃ s, resp = .ok s ∧ (s = 200 ∨ s = 204 ∨ s = 404) := by
  cases resp with
  | error e => simp [delete_project]
  | ok s => simp [delete_project]; tauto

/-- C7 counterexample: when the wait for the project list container itself
times out, verify_project_in_dashboard propagates the exception instead of
returning false, so there is an execution path on which non-visibility by the
deadline is reported as a raised error rather than the boolean false. -/
theorem verify_project_in_dashboard_raises_counterexample :
    verify_project_in_dashboard (.error .timeout) (.error .timeout) = .error .timeout ∧
    verify_project_in_dashboard (.error .timeout) (.error .timeout) ≠ .ok false := by
  constructor
  · rfl
  · simp [verify_project_in_dashboard]

/-- C7 amended: when the project list loads within the deadline and the
project card is not visible by the deadline, verify_project_in_dashboard
returns the boolean false rather than raising; only a timeout of the
project-list wait itself (which sits outside the try block) propagates. -/
theorem verify_project_in_dashboard_amended (e : ApiError) :
    verify_project_in_dashboard (.ok ()) (.error e) = .ok false := rfl

/-- C6: STEP 2 of the orchestrated workflow contains an unconditional
fixed-duration sleep (time.sleep of 2000 ms) immediately before the dashboard
visibility observation, so not every observation of asynchronous state goes
through the polling wait primitive. -/
theorem step2_fixed_sleep_before_check :
    step2_sequence[1]? = some (Step.fixedSleep 2000) ∧
    step2_sequence[2]? = some Step.dashboardVisibilityCheck ∧
    Step.fixedSleep 2000 ∈ step2_sequence := by
  refine ⟨rfl, rfl, ?_⟩
  simp [step2_sequence]

/-- Helper: the 0.8 threshold comparison on an exact ratio of naturals is
equivalent to the linear inequality 4 * N <= 5 * M. -/
theorem rate_ge_iff (M N : Nat) (h : N ≠ 0) :
    threshold ≤ (M : ℚ) / (N : ℚ) ↔ 4 * N ≤ 5 * M := by
  have hN : (0 : ℚ) < (N : ℚ) := by exact_mod_cast Nat.pos_of_ne_zero h
  rw [threshold, div_le_div_iff₀ (by norm_num) hN]
  constructor
  · intro hq
    have hq2 : (4 * N : ℚ) ≤ (5 * M : ℚ) := by linarith
    exact_mod_cast hq2
  · intro hn
    have hq2 : (4 * N : ℚ) ≤ (5 * M : ℚ) := by exact_mod_cast hn
    push_cast at hq2
    linarith

/-- C4: for a fan-out over N profiles with exactly M passing, the computed
success rate equals M/N exactly; the accept decision holds exactly when
M/N is at least 0.8 (equivalently 4N <= 5M), the same criterion applies to
the concurrent-creation batch, and the boundary behaves as claimed: 4 of 5
passing is accepted and 3 of 4 passing is rejected. -/
theorem success_rate_threshold_spec (results : List Bool) (workers : List WorkerResult)
    (h : results.length ≠ 0) :
    success_rate results = (results.count true : ℚ) / (results.length : ℚ) ∧
    (meets_threshold results = true ↔ 4 * results.length ≤ 5 * results.count true) ∧
    (threshold ≤ concurrent_success_rate workers ↔ 4 ≤ successful_creations workers) ∧
    meets_threshold [true, true, true, true, false] = true ∧
    meets_threshold [true, true, true, false] = false := by
  refine ⟨rfl, ?_, ?_, ?_, ?_⟩
  · rw [meets_threshold, decide_eq_true_iff, success_rate, passCount]
    exact rate_ge_iff (results.count true) results.length h
  · rw [concurrent_success_rate,
      rate_ge_iff (successful_creations workers) num_threads (by decide)]
    rw [num_threads]
    omega
  · rw [meets_threshold, decide_eq_true_iff, success_rate, passCount,
      rate_ge_iff _ _ (by decide)]
    decide
  · rw [meets_threshold, decide_eq_false_iff_not, success_rate, passCount,
      rate_ge_iff _ _ (by decide)]
    decide

/-- Witness for C4 at a concrete input: the 4-of-5 boundary fan-out is
accepted. -/
theorem success_rate_threshold_witness :
    meets_threshold [true, true, true, true, false] = true :=
  (success_rate_threshold_spec [true, true, true, true, false] [] (by decide)).2.2.2.1

/-- C5: test_cross_platform runs the per-platform verification once per
declared platform and returns an entry for every platform of the matrix, in
matrix order; an exception while verifying one platform is caught and
recorded as false for that platform without affecting the remaining
platforms. -/
theorem test_cross_platform_spec (verify : String → Except ApiError Bool) :
    (test_cross_platform verify).map Prod.fst = platforms ∧
    (∀ p, p ∈ platforms → (p, platformOutcome verify p) ∈ test_cross_platform verify) ∧
    (∀ p e, p ∈ platforms → verify p = .error e → (p, false) ∈ test_cross_platform verify) := by
  refine ⟨?_, ?_, ?_⟩
  · simp [test_cross_platform, List.map_map, Function.comp_def]
  · intro p hp
    exact List.mem_map_of_mem _ hp
  · intro p e hp he
    have hout : platformOutcome verify p = false := by rw [platformOutcome, he]
    have h2 : (p, platformOutcome verify p) ∈ test_cross_platform verify :=
      List.mem_map_of_mem _ hp
    rw [hout] at h2
    exact h2

/-- Witness for C5 at a concrete input: with a verification that raises on
safari_mac only, the result map records false for safari_mac. -/
theorem test_cross_platform_spec_witness :
    ("safari_mac", false) ∈ test_cross_platform verifyEx :=
  (test_cross_platform_spec verifyEx).2.2 "safari_mac" .timeout (by decide) (by rfl)

/-- C2 counterexample: a run whose create succeeds (id 7) registers the
entity exactly once, but when the cleanup fixture's re-authentication raises,
the drain is skipped entirely and no deletion is attempted, not one. -/
theorem flow_cleanup_counterexample :
    (test_project_creation_flow (.ok 7) true true true (.ok ()) (.error .forbidden)
        (fun _ => .ok true)).registry = [(7, COMPANY1_ID)] ∧
    cleanup_projects (.error .timeout)
        (test_project_creation_flow (.ok 7) true true true (.ok ()) (.error .forbidden)
          (fun _ => .ok true)).registry = [] :=
  ⟨rfl, rfl⟩

/-- C2 amended: for every run whose create succeeds, the created (id, tenant)
pair is registered in the cleanup registry exactly once, before and
independent of every later verification stage; and whenever the cleanup
fixture's re-authentication succeeds, deletion of that pair is attempted
exactly once by run end, regardless of the later stage outcomes. -/
theorem flow_cleanup_amended (pid : Nat) (uiOk iphoneOk androidOk : Bool)
    (isolationA isolationB : GetResult) (platformVerify : String → Except ApiError Bool) :
    ((test_project_creation_flow (.ok pid) uiOk iphoneOk androidOk isolationA isolationB
        platformVerify).registry).count (pid, COMPANY1_ID) = 1 ∧
    (cleanup_projects (.ok ())
        (test_project_creation_flow (.ok pid) uiOk iphoneOk androidOk isolationA isolationB
          platformVerify).registry).count (pid, COMPANY1_ID) = 1 := by
  constructor <;> simp [test_project_creation_flow, cleanup_projects]

/-- Helper: the concurrent-creation threshold comparison is equivalent to at
least 4 of the 5 workers having succeeded. -/
theorem concurrent_rate_iff (results : List WorkerResult) :
    threshold ≤ concurrent_success_rate results ↔ 4 ≤ successful_creations results := by
  rw [concurrent_success_rate,
    rate_ge_iff (successful_creations results) num_threads (by decide)]
  rw [num_threads]
  omega

/-- C3 counterexample: with three of five workers succeeding the ratio is 0.6,
the threshold assertion raises before the cleanup block, and no deletion is
attempted even though three entities were successfully created. -/
theorem concurrent_below_threshold_counterexample :
    successful_creations threeOfFiveResults = 3 ∧
    created_project_ids threeOfFiveResults = [some 100, some 101, some 102] ∧
    (test_concurrent_project_creation threeOfFiveResults (.ok ())).2 = [] := by
  have hneg : ¬ threshold ≤ concurrent_success_rate threeOfFiveResults := by
    rw [concurrent_rate_iff]
    decide
  refine ⟨by decide, by decide, ?_⟩
  simp only [test_concurrent_project_creation, if_neg hneg]

/-- C3 amended: deletion of every successfully created entity is attempted
only when the computed success ratio meets the 0.8 threshold, that is, when
at least 4 of the 5 workers succeeded (and the cleanup client's
authentication succeeds); when the ratio is below the threshold, the
assertion raises before the cleanup block and no deletion is attempted. -/
theorem concurrent_cleanup_amended (results : List WorkerResult) :
    (4 ≤ successful_creations results →
      (test_concurrent_project_creation results (.ok ())).2 = created_project_ids results) ∧
    (successful_creations results < 4 →
      ∀ auth, (test_concurrent_project_creation results auth).2 = []) := by
  constructor
  · intro h
    simp only [test_concurrent_project_creation,
      if_pos ((concurrent_rate_iff results).mpr h)]
  · intro h auth
    have hneg : ¬ threshold ≤ concurrent_success_rate results := by
      rw [concurrent_rate_iff]
      omega
    simp only [test_concurrent_project_creation, if_neg hneg]

/-- Witness for C3 amended at a concrete input: with four of five workers
succeeding (ratio 0.8) and cleanup authentication succeeding, the deletion
attempts are exactly the four successful ids. -/
theorem concurrent_cleanup_amended_witness :
    (test_concurrent_project_creation fourOfFiveResults (.ok ())).2 =
      created_project_ids fourOfFiveResults :=
  (concurrent_cleanup_amended fourOfFiveResults).1 (by decide)

/-- Helper: the retry loop only inspects the outcomes of attempts within its
iteration budget. -/
theorem navigateAttempts_congr (op op2 : Nat → Except ApiError Unit) :
    ∀ (remaining attempt : Nat),
      (∀ j, attempt ≤ j → j < attempt + remaining → op j = op2 j) →
      navigateAttempts op attempt remaining = navigateAttempts op2 attempt remaining := by
  intro remaining
  induction remaining with
  | zero => intro attempt h; rfl
  | succ r ih =>
    intro attempt h
    have h0 : op attempt = op2 attempt := h attempt le_rfl (by omega)
    cases r with
    | zero => simp only [navigateAttempts, h0]
    | succ r2 =>
      simp only [navigateAttempts, h0]
      cases hop : op2 attempt with
      | ok u => rfl
      | error e =>
        exact ih (attempt + 1) (fun j hj1 hj2 => h j (by omega) (by omega))

/-- Helper: when the first k attempts from the current index raise and the
next attempt succeeds within the budget, the loop returns success with total
invocation count attempt + k + 1. -/
theorem navigateAttempts_success (op : Nat → Except ApiError Unit) :
    ∀ (remaining attempt k : Nat), k < remaining →
      (∀ j, attempt ≤ j → j < attempt + k → ∃ e, op j = .error e) →
      op (attempt + k) = .ok () →
      navigateAttempts op attempt remaining = some (.ok (attempt + k + 1)) := by
  intro remaining
  induction remaining with
  | zero => intro attempt k hk; omega
  | succ r ih =>
    intro attempt k hk hfail hok
    cases k with
    | zero =>
      have hop : op attempt = .ok () := hok
      cases r with
      | zero => simp only [navigateAttempts, hop]
      | succ r2 => simp only [navigateAttempts, hop]
    | succ k2 =>
      obtain ⟨e, he⟩ := hfail attempt le_rfl (by omega)
      cases r with
      | zero => omega
      | succ r2 =>
        have step : navigateAttempts op attempt (r2 + 2) =
            navigateAttempts op (attempt + 1) (r2 + 1) := by
          simp only [navigateAttempts, he]
        rw [step, (by omega : attempt + (k2 + 1) + 1 = attempt + 1 + k2 + 1)]
        exact ih (attempt + 1) k2 (by omega)
          (fun j hj1 hj2 => hfail j (by omega) (by omega))
          (by rw [(by omega : attempt + 1 + k2 = attempt + (k2 + 1))]; exact hok)

/-- Helper: when every attempt within the budget raises, the loop re-raises
the error of the final attempt. -/
theorem navigateAttempts_all_fail (op : Nat → Except ApiError Unit) :
    ∀ (remaining attempt : Nat) (e : ApiError), remaining ≠ 0 →
      (∀ j, attempt ≤ j → j + 1 < attempt + remaining → ∃ ej, op j = .error ej) →
      op (attempt + remaining - 1) = .error e →
      navigateAttempts op attempt remaining = some (.error e) := by
  intro remaining
  induction remaining with
  | zero => intro attempt e h; exact absurd rfl h
  | succ r ih =>
    intro attempt e _ hfail hlast
    cases r with
    | zero =>
      have hop : op attempt = .error e := by
        rwa [(by omega : attempt + 1 - 1 = attempt)] at hlast
      simp only [navigateAttempts, hop]
    | succ r2 =>
      obtain ⟨ej, hej⟩ := hfail attempt le_rfl (by omega)
      have step : navigateAttempts op attempt (r2 + 2) =
          navigateAttempts op (attempt + 1) (r2 + 1) := by
        simp only [navigateAttempts, hej]
      rw [step]
      apply ih (attempt + 1) e (by omega)
      · intro j hj1 hj2
        exact hfail j (by omega) (by omega)
      · rw [(by omega : attempt + 1 + (r2 + 1) - 1 = attempt + (r2 + 1 + 1) - 1)]
        exact hlast

/-- C8: navigate_to_login invokes the navigation at most max_retries times
(its result depends only on the first max_retries attempt outcomes); when the
first k invocations raise, k is below max_retries, and the next invocation
succeeds, it returns success after exactly k + 1 invocations; and when all
max_retries invocations raise, the error of the last attempt is propagated to
the caller. -/
theorem navigate_to_login_retry_spec (op : Nat → Except ApiError Unit) :
    (∀ op2 : Nat → Except ApiError Unit,
      (∀ j, j < max_retries → op j = op2 j) →
      navigate_to_login op = navigate_to_login op2) ∧
    (∀ k, k < max_retries → (∀ j, j < k → ∃ e, op j = .error e) → op k = .ok () →
      navigate_to_login op = some (.ok (k + 1))) ∧
    (∀ e, (∀ j, j + 1 < max_retries → ∃ ej, op j = .error ej) →
      op (max_retries - 1) = .error e →
      navigate_to_login op = some (.error e)) := by
  refine ⟨?_, ?_, ?_⟩
  · intro op2 h
    exact navigateAttempts_congr op op2 max_retries 0 (fun j hj1 hj2 => h j (by omega))
  · intro k hk hfail hok
    have hres := navigateAttempts_success op max_retries 0 k hk
      (fun j hj1 hj2 => hfail j (by omega)) (by simpa using hok)
    simpa [navigate_to_login] using hres
  · intro e hfail hlast
    have hres := navigateAttempts_all_fail op max_retries 0 e (by decide)
      (fun j hj1 hj2 => hfail j (by omega)) (by simpa using hlast)
    simpa [navigate_to_login] using hres

/-- Witness for C8 at a concrete input: with the first two attempts raising
and the third succeeding, navigation returns success after exactly three
invocations. -/
theorem navigate_to_login_retry_witness :
    navigate_to_login opEx = some (.ok 3) :=
  (navigate_to_login_retry_spec opEx).2.1 2 (by decide)
    (fun j hj => ⟨.timeout, by interval_cases j <;> rfl⟩) rfl

end QaCaseStudy
